import Mathlib

/-!
Shallow embedding of src/src/ConfigResolver.ts (prettier-vscode ConfigResolver).

JavaScript objects are modelled as partial maps from property names to
JavaScript values; object spread is per-field override (later layer wins on
the fields it defines, absent fields fall through).  The external
`prettier.resolveConfig` discovery capability is modelled by its outcome,
an `Except` value: `Except.error e` when discovery throws, `Except.ok none`
for the "no configuration found" null sentinel, `Except.ok (some cfg)` for a
discovered configuration object.  The `semver` library functions used by the
code (`semver.gte`) are embedded executably below, following the semver
grammar and ordering (numeric major.minor.patch, optional prerelease with
numeric-below-alphanumeric identifier ordering, prerelease below release,
build metadata ignored); an invalid version string makes `semver.gte` throw,
modelled as `Except.error`.
-/

namespace ConfigResolverModel

/-- A JavaScript value as far as this component manipulates them. -/
inductive JSValue where
  | undef
  | str (s : String)
  | num (n : Int)
  | bool (b : Bool)
  deriving Repr, DecidableEq

/-- A JavaScript object: a partial map from property names to values.
`none` means the property is absent (distinct from present-but-undefined). -/
def Obj : Type := String → Option JSValue

/-- The empty object literal. -/
def emptyObj : Obj := fun _ => none

/-- Property read: an absent property reads as `undefined`. -/
def getProp (o : Obj) (k : String) : JSValue := (o k).getD JSValue.undef

/-- Property assignment: after the write the property is present. -/
def setProp (o : Obj) (k : String) (v : JSValue) : Obj :=
  fun k2 => if k2 = k then some v else o k2

/-- Object spread: the fields `b` defines win, absent fields of `b` fall
through to `a`. -/
def spread (a b : Obj) : Obj := fun k => (b k).orElse (fun _ => a k)

/-! Semver embedding (the parts of the `semver` npm package the code uses). -/

/-- A prerelease identifier: numeric or alphanumeric. -/
inductive PreId where
  | num (n : Nat)
  | alpha (s : String)
  deriving Repr, DecidableEq

/-- A parsed semantic version (build metadata is dropped: it never affects
ordering). -/
structure SemVer where
  major : Nat
  minor : Nat
  patch : Nat
  prerelease : List PreId
  deriving Repr, DecidableEq

/-- Longest digit run at the head of the character list. -/
def takeDigits : List Char → List Char × List Char
  | [] => ([], [])
  | c :: cs =>
    if c.isDigit then
      let t := takeDigits cs
      (c :: t.1, t.2)
    else ([], c :: cs)

/-- Longest run of identifier characters (digits, letters, hyphen) at the
head of the character list. -/
def takeIdentChars : List Char → List Char × List Char
  | [] => ([], [])
  | c :: cs =>
    if c.isDigit || c.isAlpha || c = '-' then
      let t := takeIdentChars cs
      (c :: t.1, t.2)
    else ([], c :: cs)

/-- Decimal value of a digit run. -/
def digitsToNat (ds : List Char) : Nat :=
  ds.foldl (fun a c => a * 10 + (c.toNat - 48)) 0

/-- Parse a semver numeric identifier: digits, no leading zero unless the
identifier is exactly "0". -/
def parseNumericIdent (cs : List Char) : Option (Nat × List Char) :=
  let t := takeDigits cs
  match t.1 with
  | [] => none
  | c :: rest =>
    if c = '0' ∧ rest ≠ [] then none
    else some (digitsToNat (c :: rest), t.2)

/-- Expect one given character at the head of the input. -/
def expectChar (c : Char) : List Char → Option (List Char)
  | [] => none
  | c2 :: r => if c2 = c then some r else none

/-- Classify one prerelease identifier: all-digits runs are numeric (leading
zeros rejected), anything else nonempty is alphanumeric. -/
def classifyPreId (ds : List Char) : Option PreId :=
  match ds with
  | [] => none
  | c :: rest =>
    if (c :: rest).all Char.isDigit then
      if c = '0' ∧ rest ≠ [] then none
      else some (PreId.num (digitsToNat (c :: rest)))
    else some (PreId.alpha (String.mk (c :: rest)))

/-- Parse a dot-separated nonempty list of prerelease identifiers.  The
first argument is fuel bounding the recursion depth. -/
def parsePreIds : Nat → List Char → Option (List PreId × List Char)
  | 0, _ => none
  | Nat.succ fuel, cs =>
    let t := takeIdentChars cs
    match classifyPreId t.1 with
    | none => none
    | some pid =>
      match t.2 with
      | '.' :: r2 =>
        match parsePreIds fuel r2 with
        | some (ids, rest) => some (pid :: ids, rest)
        | none => none
      | r => some ([pid], r)

/-- Parse a dot-separated nonempty list of build identifiers (their content
is ignored, only validity matters). -/
def parseBuildIds : Nat → List Char → Option (List Char)
  | 0, _ => none
  | Nat.succ fuel, cs =>
    let t := takeIdentChars cs
    if t.1.isEmpty then none
    else match t.2 with
      | '.' :: r2 => parseBuildIds fuel r2
      | r => some r

/-- Surrounding whitespace removal on a character list. -/
def trimChars (cs : List Char) : List Char :=
  ((cs.dropWhile Char.isWhitespace).reverse.dropWhile Char.isWhitespace).reverse

/-- Parse a semantic version string: optional surrounding whitespace and one
optional leading v, then major.minor.patch, optional -prerelease, optional
+build, end of input. -/
def semverParse (s : String) : Option SemVer := do
  let cs0 := trimChars s.toList
  let cs1 := match cs0 with
    | 'v' :: r => r
    | _ => cs0
  let (major, cs2) ← parseNumericIdent cs1
  let cs3 ← expectChar '.' cs2
  let (minor, cs4) ← parseNumericIdent cs3
  let cs5 ← expectChar '.' cs4
  let (patch, cs6) ← parseNumericIdent cs5
  let (pre, cs7) ← match cs6 with
    | '-' :: r => parsePreIds (r.length + 1) r
    | _ => pure (([] : List PreId), cs6)
  let cs8 ← match cs7 with
    | '+' :: r => parseBuildIds (r.length + 1) r
    | _ => pure cs7
  match cs8 with
  | [] => some (SemVer.mk major minor patch pre)
  | _ => none

/-- Lexicographic comparison of character lists by code point. -/
def cmpCharList : List Char → List Char → Ordering
  | [], [] => Ordering.eq
  | [], _ :: _ => Ordering.lt
  | _ :: _, [] => Ordering.gt
  | a :: as, b :: bs =>
    match compare a b with
    | Ordering.eq => cmpCharList as bs
    | o => o

/-- Compare prerelease identifiers: numeric compare numerically and sort
below alphanumeric; alphanumeric compare lexically. -/
def cmpPreId : PreId → PreId → Ordering
  | PreId.num a, PreId.num b => compare a b
  | PreId.num _, PreId.alpha _ => Ordering.lt
  | PreId.alpha _, PreId.num _ => Ordering.gt
  | PreId.alpha a, PreId.alpha b => cmpCharList a.toList b.toList

/-- Identifier-wise comparison once both sides are known to be prerelease
lists: a shorter list that is a prefix of the other sorts first. -/
def cmpPreRest : List PreId → List PreId → Ordering
  | [], [] => Ordering.eq
  | [], _ :: _ => Ordering.lt
  | _ :: _, [] => Ordering.gt
  | a :: as, b :: bs =>
    match cmpPreId a b with
    | Ordering.eq => cmpPreRest as bs
    | o => o

/-- Compare prerelease lists: a version with no prerelease sorts above any
prerelease of the same release triple. -/
def cmpPre (a b : List PreId) : Ordering :=
  match a, b with
  | [], [] => Ordering.eq
  | [], _ :: _ => Ordering.gt
  | _ :: _, [] => Ordering.lt
  | _, _ => cmpPreRest a b

/-- Standard semantic-version ordering. -/
def semverCompare (a b : SemVer) : Ordering :=
  match compare a.major b.major with
  | Ordering.eq =>
    match compare a.minor b.minor with
    | Ordering.eq =>
      match compare a.patch b.patch with
      | Ordering.eq => cmpPre a.prerelease b.prerelease
      | o => o
    | o => o
  | o => o

/-- Embedding of semver.gte: parses both arguments (throwing, modelled as
`Except.error`, on the first invalid one: the first argument is parsed
first) and tests greater-or-equal under semver ordering. -/
def semverGte (a b : String) : Except String Bool :=
  match semverParse a with
  | none => Except.error ("Invalid Version: " ++ a)
  | some va =>
    match semverParse b with
    | none => Except.error ("Invalid Version: " ++ b)
    | some vb =>
      Except.ok (match semverCompare va vb with
        | Ordering.lt => false
        | _ => true)

/-! The ConfigResolver component itself. -/

/-- Result record of the private resolveConfig method
(IResolveConfigResult): `config` is the discovered configuration or the
null sentinel, `error` the caught discovery failure if any. -/
structure IResolveConfigResult where
  config : Option Obj
  error : Option String

/-- Embedding of ConfigResolver.resolveConfig: wraps the discovery outcome,
catching a thrown error into the `error` field with `config` null. -/
def resolveConfig (discover : Except String (Option Obj)) : IResolveConfigResult :=
  match discover with
  | Except.ok config => IResolveConfigResult.mk config none
  | Except.error e => IResolveConfigResult.mk none (some e)

/-- Embedding of ConfigResolver.checkHasPrettierConfig: rethrows a
discovery error, otherwise reports whether a configuration (not the null
sentinel) was found. -/
def checkHasPrettierConfig (discover : Except String (Option Obj)) : Except String Bool :=
  let r := resolveConfig discover
  match r.error with
  | some e => Except.error e
  | none => Except.ok r.config.isSome

/-- The rangeFormattingOptions argument record. -/
structure RangeFormattingOptions where
  rangeStart : Int
  rangeEnd : Int
  deriving Repr, DecidableEq

/-- Object literal view of rangeFormattingOptions, with absence modelled as
the empty object, matching the spread of rangeFormattingOptions or empty. -/
def rangeToObj : Option RangeFormattingOptions → Obj
  | some r =>
    setProp (setProp emptyObj "rangeStart" (JSValue.num r.rangeStart))
      "rangeEnd" (JSValue.num r.rangeEnd)
  | none => emptyObj

/-- The object literal holding the injected filepath and parser fields. -/
def injectedObj (fileName parser : String) : Obj :=
  setProp (setProp emptyObj "filepath" (JSValue.str fileName))
    "parser" (JSValue.str parser)

/-- The vsOpts object after the fallback branch: starts as the empty object
literal; the seventeen per-property assignments run only when falling back
to the editor configuration, three of them gated on usePrettierV2Defaults. -/
def buildVsOpts (vsCodeConfig : Obj) (usePrettierV2Defaults : Bool)
    (fallbackToVSCodeConfig : Bool) : Obj :=
  if fallbackToVSCodeConfig then
    let o := emptyObj
    let o := setProp o "arrowParens"
      (if usePrettierV2Defaults then getProp vsCodeConfig "arrowParens"
       else JSValue.str "avoid")
    let o := setProp o "bracketSpacing" (getProp vsCodeConfig "bracketSpacing")
    let o := setProp o "endOfLine"
      (if usePrettierV2Defaults then getProp vsCodeConfig "endOfLine"
       else JSValue.str "auto")
    let o := setProp o "htmlWhitespaceSensitivity"
      (getProp vsCodeConfig "htmlWhitespaceSensitivity")
    let o := setProp o "insertPragma" (getProp vsCodeConfig "insertPragma")
    let o := setProp o "jsxBracketSameLine" (getProp vsCodeConfig "jsxBracketSameLine")
    let o := setProp o "jsxSingleQuote" (getProp vsCodeConfig "jsxSingleQuote")
    let o := setProp o "printWidth" (getProp vsCodeConfig "printWidth")
    let o := setProp o "proseWrap" (getProp vsCodeConfig "proseWrap")
    let o := setProp o "quoteProps" (getProp vsCodeConfig "quoteProps")
    let o := setProp o "requirePragma" (getProp vsCodeConfig "requirePragma")
    let o := setProp o "semi" (getProp vsCodeConfig "semi")
    let o := setProp o "singleQuote" (getProp vsCodeConfig "singleQuote")
    let o := setProp o "tabWidth" (getProp vsCodeConfig "tabWidth")
    let o := setProp o "trailingComma"
      (if usePrettierV2Defaults then getProp vsCodeConfig "trailingComma"
       else JSValue.str "none")
    let o := setProp o "useTabs" (getProp vsCodeConfig "useTabs")
    let o := setProp o "vueIndentScriptAndStyle"
      (getProp vsCodeConfig "vueIndentScriptAndStyle")
    o
  else emptyObj

/-- The informational log line of the fallback branch. -/
def fallbackLogMsg : String :=
  "No local configuration (i.e. .prettierrc or .editorconfig) detected, falling back to VS Code configuration"

/-- The informational log line of the discovered-configuration branch. -/
def detectedLogMsg : String :=
  "Detected local configuration (i.e. .prettierrc or .editorconfig), VS Code configuration will not be used"

/-- Result record of getPrettierOptions: at most one of options and error. -/
structure OptionsResult where
  options : Option Obj
  error : Option String

/-- The four-layer object-spread merge building the final options object:
editor-derived options (only when falling back), then the injected filepath
and parser pair, then range options, then the discovered configuration,
later layers winning per field. -/
def mergeLayers (fallbackToVSCodeConfig : Bool) (vsOpts : Obj)
    (fileName parser : String) (rangeFormattingOptions : Option RangeFormattingOptions)
    (configOptions : Option Obj) : Obj :=
  spread
    (spread
      (spread (if fallbackToVSCodeConfig then vsOpts else emptyObj)
        (injectedObj fileName parser))
      (rangeToObj rangeFormattingOptions))
    (configOptions.getD emptyObj)

/-- Embedding of ConfigResolver.getPrettierOptions.  Returns the typed
result record paired with the list of log lines written through the logging
sink during the call; a thrown JavaScript exception (only the semver
comparison can throw here) is the outer `Except.error`. -/
def getPrettierOptions (fileName parser : String) (vsCodeConfig : Obj)
    (prettierVersion : String) (discover : Except String (Option Obj))
    (rangeFormattingOptions : Option RangeFormattingOptions) :
    Except String (OptionsResult × List String) :=
  let r := resolveConfig discover
  match r.error with
  | some e => Except.ok (OptionsResult.mk none (some e), [])
  | none =>
    let configOptions := r.config
    let fallbackToVSCodeConfig := configOptions.isNone
    match semverGte prettierVersion "2.0.0" with
    | Except.error e => Except.error e
    | Except.ok usePrettierV2Defaults =>
      let vsOpts := buildVsOpts vsCodeConfig usePrettierV2Defaults fallbackToVSCodeConfig
      let logLine := if fallbackToVSCodeConfig then fallbackLogMsg else detectedLogMsg
      let options := mergeLayers fallbackToVSCodeConfig vsOpts fileName parser
        rangeFormattingOptions configOptions
      Except.ok (OptionsResult.mk (some options) none, [logLine])

/-- Field of the options record of a getPrettierOptions outcome (absent on
an exception or a typed error result). -/
def resultField (r : Except String (OptionsResult × List String)) (k : String) :
    Option JSValue :=
  match r with
  | Except.ok (res, _) => (res.options.getD emptyObj) k
  | Except.error _ => none

/-- Log lines written during a getPrettierOptions outcome. -/
def resultLogs (r : Except String (OptionsResult × List String)) : List String :=
  match r with
  | Except.ok (_, logs) => logs
  | Except.error _ => []

/-- The fourteen fields copied unconditionally from the editor config in the
fallback branch. -/
def unconditionalFields : List String :=
  ["bracketSpacing", "htmlWhitespaceSensitivity", "insertPragma",
   "jsxBracketSameLine", "jsxSingleQuote", "printWidth", "proseWrap",
   "quoteProps", "requirePragma", "semi", "singleQuote", "tabWidth",
   "useTabs", "vueIndentScriptAndStyle"]

/-! Store-based embedding for the frame property.  JavaScript objects live
on a heap; property assignment mutates the object a reference points to.
To state that getPrettierOptions never mutates its argument objects, the
same body is embedded once more with an explicit store: references are
natural numbers, the store maps references to objects, and every property
write of the source is an explicit store write.  The only object the source
ever writes to is vsOpts, which the source creates as a fresh object
literal, modelled by allocation at the next unused reference. -/

/-- A heap of JavaScript objects: a map from references to objects together
with the next unused reference. -/
structure Store where
  mem : Nat → Obj
  next : Nat

/-- Property assignment through a reference. -/
def storeWrite (σ : Store) (r : Nat) (k : String) (v : JSValue) : Store :=
  Store.mk (fun r2 => if r2 = r then setProp (σ.mem r2) k v else σ.mem r2) σ.next

/-- Allocation of a fresh empty object literal. -/
def storeAllocEmpty (σ : Store) : Nat × Store :=
  (σ.next,
   Store.mk (fun r => if r = σ.next then emptyObj else σ.mem r) (σ.next + 1))

/-- The seventeen vsOpts property assignments of the fallback branch, as
store writes to the vsOpts reference reading the editor config reference. -/
def buildVsOptsST (vsOptsRef vsCodeRef : Nat) (usePrettierV2Defaults : Bool)
    (σ : Store) : Store :=
  let σ := storeWrite σ vsOptsRef "arrowParens"
    (if usePrettierV2Defaults then getProp (σ.mem vsCodeRef) "arrowParens"
     else JSValue.str "avoid")
  let σ := storeWrite σ vsOptsRef "bracketSpacing" (getProp (σ.mem vsCodeRef) "bracketSpacing")
  let σ := storeWrite σ vsOptsRef "endOfLine"
    (if usePrettierV2Defaults then getProp (σ.mem vsCodeRef) "endOfLine"
     else JSValue.str "auto")
  let σ := storeWrite σ vsOptsRef "htmlWhitespaceSensitivity"
    (getProp (σ.mem vsCodeRef) "htmlWhitespaceSensitivity")
  let σ := storeWrite σ vsOptsRef "insertPragma" (getProp (σ.mem vsCodeRef) "insertPragma")
  let σ := storeWrite σ vsOptsRef "jsxBracketSameLine"
    (getProp (σ.mem vsCodeRef) "jsxBracketSameLine")
  let σ := storeWrite σ vsOptsRef "jsxSingleQuote" (getProp (σ.mem vsCodeRef) "jsxSingleQuote")
  let σ := storeWrite σ vsOptsRef "printWidth" (getProp (σ.mem vsCodeRef) "printWidth")
  let σ := storeWrite σ vsOptsRef "proseWrap" (getProp (σ.mem vsCodeRef) "proseWrap")
  let σ := storeWrite σ vsOptsRef "quoteProps" (getProp (σ.mem vsCodeRef) "quoteProps")
  let σ := storeWrite σ vsOptsRef "requirePragma" (getProp (σ.mem vsCodeRef) "requirePragma")
  let σ := storeWrite σ vsOptsRef "semi" (getProp (σ.mem vsCodeRef) "semi")
  let σ := storeWrite σ vsOptsRef "singleQuote" (getProp (σ.mem vsCodeRef) "singleQuote")
  let σ := storeWrite σ vsOptsRef "tabWidth" (getProp (σ.mem vsCodeRef) "tabWidth")
  let σ := storeWrite σ vsOptsRef "trailingComma"
    (if usePrettierV2Defaults then getProp (σ.mem vsCodeRef) "trailingComma"
     else JSValue.str "none")
  let σ := storeWrite σ vsOptsRef "useTabs" (getProp (σ.mem vsCodeRef) "useTabs")
  let σ := storeWrite σ vsOptsRef "vueIndentScriptAndStyle"
    (getProp (σ.mem vsCodeRef) "vueIndentScriptAndStyle")
  σ

/-- Store-passing embedding of getPrettierOptions: the editor config and
the optional rangeFormattingOptions argument are passed as references into
the store, and the final store is returned alongside the outcome, so that
mutation of any argument object would be observable. -/
def getPrettierOptionsST (fileName parser : String) (vsCodeRef : Nat)
    (prettierVersion : String) (discover : Except String (Option Obj))
    (rangeRef : Option Nat) (σ : Store) :
    Except String (OptionsResult × List String) × Store :=
  let r := resolveConfig discover
  match r.error with
  | some e => (Except.ok (OptionsResult.mk none (some e), []), σ)
  | none =>
    let configOptions := r.config
    let t := storeAllocEmpty σ
    let vsOptsRef := t.1
    let σ1 := t.2
    let fallbackToVSCodeConfig := configOptions.isNone
    match semverGte prettierVersion "2.0.0" with
    | Except.error e => (Except.error e, σ1)
    | Except.ok usePrettierV2Defaults =>
      let σ2 := if fallbackToVSCodeConfig then
          buildVsOptsST vsOptsRef vsCodeRef usePrettierV2Defaults σ1
        else σ1
      let logLine := if fallbackToVSCodeConfig then fallbackLogMsg else detectedLogMsg
      let options := spread
        (spread
          (spread (if fallbackToVSCodeConfig then σ2.mem vsOptsRef else emptyObj)
            (injectedObj fileName parser))
          (match rangeRef with
            | some rr => σ2.mem rr
            | none => emptyObj))
        (configOptions.getD emptyObj)
      (Except.ok (OptionsResult.mk (some options) none, [logLine]), σ2)

/-- Sample editor configuration used to instantiate theorems at concrete
inputs. -/
def sampleVSCodeConfig : Obj :=
  setProp (setProp (setProp emptyObj "tabWidth" (JSValue.num 2))
    "semi" (JSValue.bool true)) "arrowParens" (JSValue.str "always")

/-- Sample discovered configuration that redefines the injected fields. -/
def discoveredOverride : Obj :=
  setProp (setProp emptyObj "filepath" (JSValue.str "b.js"))
    "parser" (JSValue.str "vue")

/-- Sample two-object store: reference 0 holds the sample editor config,
reference 1 a range options object. -/
def sampleStore : Store :=
  Store.mk
    (fun r => if r = 0 then sampleVSCodeConfig
      else if r = 1 then rangeToObj (some (RangeFormattingOptions.mk 3 17))
      else emptyObj)
    2

/-! Theorems settling the claims. -/

/-- Claim C5: checkHasPrettierConfig returns false exactly when discovery
yields the none-found sentinel, true exactly when discovery yields a
configuration, and rethrows exactly the error discovery raised. -/
theorem checkHasPrettierConfig_spec (discover : Except String (Option Obj)) :
    (checkHasPrettierConfig discover = Except.ok false ↔ discover = Except.ok none) ∧
    (checkHasPrettierConfig discover = Except.ok true ↔ ∃ c, discover = Except.ok (some c)) ∧
    (∀ e, checkHasPrettierConfig discover = Except.error e ↔ discover = Except.error e) := by
  rcases discover with e | c
  · simp [checkHasPrettierConfig, resolveConfig]
  · rcases c with _ | c <;> simp [checkHasPrettierConfig, resolveConfig]

/-- Claim C6: resolveConfig never propagates a discovery failure: it is a
total function that turns a raised error into the error field with the
config field set to the sentinel, and wraps a successful value (possibly
the sentinel) as the config field with no error. -/
theorem resolveConfig_spec (discover : Except String (Option Obj)) :
    (∀ e, discover = Except.error e →
      resolveConfig discover = IResolveConfigResult.mk none (some e)) ∧
    (∀ c, discover = Except.ok c →
      resolveConfig discover = IResolveConfigResult.mk c none) := by
  rcases discover with e | c <;> simp [resolveConfig]

/-- Claim C10: when the prettierVersion string does not parse as a semantic
version, the semver comparison inside getPrettierOptions throws, and the
exception propagates to the caller instead of becoming a typed error
result. -/
theorem getPrettierOptions_invalid_version_throws (fileName parser : String)
    (vsCodeConfig : Obj) (prettierVersion : String) (cfg : Option Obj)
    (ro : Option RangeFormattingOptions)
    (hpv : semverParse prettierVersion = none) :
    getPrettierOptions fileName parser vsCodeConfig prettierVersion (Except.ok cfg) ro
      = Except.error ("Invalid Version: " ++ prettierVersion) := by
  simp [getPrettierOptions, resolveConfig, semverGte, hpv]

/-- Witness for claim C10 at the concrete invalid version string. -/
theorem getPrettierOptions_invalid_version_throws_witness :
    getPrettierOptions "a.js" "babel" emptyObj "not-a-version" (Except.ok none) none
      = Except.error ("Invalid Version: " ++ "not-a-version") :=
  getPrettierOptions_invalid_version_throws "a.js" "babel" emptyObj "not-a-version"
    none none (by rfl)

/-- Claim C2: every field present in a discovered configuration appears in
the returned options with the discovered value, whatever the editor config
and the range options hold. -/
theorem getPrettierOptions_discovered_wins (fileName parser : String) (vsCodeConfig : Obj)
    (prettierVersion : String) (cfg : Obj) (ro : Option RangeFormattingOptions)
    (b : Bool) (k : String) (v : JSValue)
    (hsv : semverGte prettierVersion "2.0.0" = Except.ok b)
    (hk : cfg k = some v) :
    resultField (getPrettierOptions fileName parser vsCodeConfig prettierVersion
      (Except.ok (some cfg)) ro) k = some v := by
  simp [getPrettierOptions, resolveConfig, hsv, resultField, mergeLayers, spread, hk]

/-- Witness for claim C2: a discovered tabWidth of 4 wins over the sample
editor config. -/
theorem getPrettierOptions_discovered_wins_witness :
    resultField (getPrettierOptions "a.js" "babel" sampleVSCodeConfig "2.0.0"
      (Except.ok (some (setProp emptyObj "tabWidth" (JSValue.num 4)))) none) "tabWidth"
      = some (JSValue.num 4) :=
  getPrettierOptions_discovered_wins "a.js" "babel" sampleVSCodeConfig "2.0.0"
    (setProp emptyObj "tabWidth" (JSValue.num 4)) none true "tabWidth" (JSValue.num 4)
    (by rfl) (by rfl)

/-- Counterexample to claim C8 as stated: a call whose discovery errored
returns before logging, so it emits zero log lines, not exactly one. -/
theorem getPrettierOptions_error_emits_no_log :
    resultLogs (getPrettierOptions "a.js" "babel" sampleVSCodeConfig "2.0.0"
      (Except.error "EACCES") none) = [] := rfl

/-- Counterexample to claim C1 as stated: a discovered configuration that
carries filepath and parser fields overrides the injected call arguments,
because the discovered configuration is spread last. -/
theorem getPrettierOptions_filepath_parser_overridden :
    resultField (getPrettierOptions "a.js" "babel" sampleVSCodeConfig "2.0.0"
      (Except.ok (some discoveredOverride)) none) "filepath" = some (JSValue.str "b.js") ∧
    resultField (getPrettierOptions "a.js" "babel" sampleVSCodeConfig "2.0.0"
      (Except.ok (some discoveredOverride)) none) "parser" = some (JSValue.str "vue") := by
  exact ⟨by rfl, by rfl⟩

/-- Claim C1 as amended: whenever the discovered configuration does not
itself define filepath or parser, the returned options carry exactly the
call arguments in those fields; neither the editor config nor the range
options can ever override them. -/
theorem getPrettierOptions_filepath_parser_injected (fileName parser : String)
    (vsCodeConfig : Obj) (prettierVersion : String) (cfg : Option Obj)
    (ro : Option RangeFormattingOptions) (b : Bool)
    (hsv : semverGte prettierVersion "2.0.0" = Except.ok b)
    (hfp : (cfg.getD emptyObj) "filepath" = none)
    (hpr : (cfg.getD emptyObj) "parser" = none) :
    resultField (getPrettierOptions fileName parser vsCodeConfig prettierVersion
      (Except.ok cfg) ro) "filepath" = some (JSValue.str fileName) ∧
    resultField (getPrettierOptions fileName parser vsCodeConfig prettierVersion
      (Except.ok cfg) ro) "parser" = some (JSValue.str parser) := by
  rcases ro with _ | r <;>
    simp [getPrettierOptions, resolveConfig, hsv, resultField, mergeLayers, spread,
      rangeToObj, injectedObj, setProp, emptyObj, hfp, hpr]

/-- Witness for the amended claim C1 at a discovered configuration that
defines neither filepath nor parser. -/
theorem getPrettierOptions_filepath_parser_injected_witness :
    resultField (getPrettierOptions "a.js" "babel" sampleVSCodeConfig "2.0.0"
      (Except.ok (some emptyObj)) none) "filepath" = some (JSValue.str "a.js") ∧
    resultField (getPrettierOptions "a.js" "babel" sampleVSCodeConfig "2.0.0"
      (Except.ok (some emptyObj)) none) "parser" = some (JSValue.str "babel") :=
  getPrettierOptions_filepath_parser_injected "a.js" "babel" sampleVSCodeConfig "2.0.0"
    (some emptyObj) none true (by rfl) (by rfl) (by rfl)

/-- Claim C3: when discovery returns the none-found sentinel, the result
carries the injected filepath and parser, every unconditionally copied
field equals the corresponding editor config field, and the three gated
fields follow the version gate. -/
theorem getPrettierOptions_fallback_spec (fileName parser : String) (vsCodeConfig : Obj)
    (prettierVersion : String) (ro : Option RangeFormattingOptions) (b : Bool)
    (hsv : semverGte prettierVersion "2.0.0" = Except.ok b) :
    resultField (getPrettierOptions fileName parser vsCodeConfig prettierVersion
      (Except.ok none) ro) "filepath" = some (JSValue.str fileName) ∧
    resultField (getPrettierOptions fileName parser vsCodeConfig prettierVersion
      (Except.ok none) ro) "parser" = some (JSValue.str parser) ∧
    (∀ k, k ∈ unconditionalFields →
      resultField (getPrettierOptions fileName parser vsCodeConfig prettierVersion
        (Except.ok none) ro) k = some (getProp vsCodeConfig k)) ∧
    resultField (getPrettierOptions fileName parser vsCodeConfig prettierVersion
      (Except.ok none) ro) "arrowParens"
      = some (if b then getProp vsCodeConfig "arrowParens" else JSValue.str "avoid") ∧
    resultField (getPrettierOptions fileName parser vsCodeConfig prettierVersion
      (Except.ok none) ro) "trailingComma"
      = some (if b then getProp vsCodeConfig "trailingComma" else JSValue.str "none") ∧
    resultField (getPrettierOptions fileName parser vsCodeConfig prettierVersion
      (Except.ok none) ro) "endOfLine"
      = some (if b then getProp vsCodeConfig "endOfLine" else JSValue.str "auto") := by
  refine ⟨?_, ?_, ?_, ?_, ?_, ?_⟩
  case refine_3 =>
    intro k hk
    fin_cases hk <;> rcases ro with _ | r <;>
      simp [getPrettierOptions, resolveConfig, hsv, resultField, mergeLayers, spread,
        rangeToObj, injectedObj, setProp, emptyObj, buildVsOpts, getProp]
  all_goals
    rcases ro with _ | r <;>
      simp [getPrettierOptions, resolveConfig, hsv, resultField, mergeLayers, spread,
        rangeToObj, injectedObj, setProp, emptyObj, buildVsOpts, getProp]

/-- Witness for claim C3 at a pre-2.0.0 version with range options
present. -/
theorem getPrettierOptions_fallback_spec_witness :
    resultField (getPrettierOptions "a.js" "babel" sampleVSCodeConfig "1.19.0"
      (Except.ok none) (some (RangeFormattingOptions.mk 3 17))) "filepath"
      = some (JSValue.str "a.js") ∧
    resultField (getPrettierOptions "a.js" "babel" sampleVSCodeConfig "1.19.0"
      (Except.ok none) (some (RangeFormattingOptions.mk 3 17))) "parser"
      = some (JSValue.str "babel") ∧
    (∀ k, k ∈ unconditionalFields →
      resultField (getPrettierOptions "a.js" "babel" sampleVSCodeConfig "1.19.0"
        (Except.ok none) (some (RangeFormattingOptions.mk 3 17))) k
        = some (getProp sampleVSCodeConfig k)) ∧
    resultField (getPrettierOptions "a.js" "babel" sampleVSCodeConfig "1.19.0"
      (Except.ok none) (some (RangeFormattingOptions.mk 3 17))) "arrowParens"
      = some (JSValue.str "avoid") ∧
    resultField (getPrettierOptions "a.js" "babel" sampleVSCodeConfig "1.19.0"
      (Except.ok none) (some (RangeFormattingOptions.mk 3 17))) "trailingComma"
      = some (JSValue.str "none") ∧
    resultField (getPrettierOptions "a.js" "babel" sampleVSCodeConfig "1.19.0"
      (Except.ok none) (some (RangeFormattingOptions.mk 3 17))) "endOfLine"
      = some (JSValue.str "auto") :=
  getPrettierOptions_fallback_spec "a.js" "babel" sampleVSCodeConfig "1.19.0"
    (some (RangeFormattingOptions.mk 3 17)) false (by rfl)

/-- Claim C4: in the fallback case the three gated fields come from the
editor config exactly when the parsed formatter version is at least 2.0.0
under semantic-version ordering, and are the fixed values avoid, none and
auto otherwise. -/
theorem getPrettierOptions_version_gate (fileName parser : String) (vsCodeConfig : Obj)
    (prettierVersion : String) (ro : Option RangeFormattingOptions) (va : SemVer)
    (hva : semverParse prettierVersion = some va) :
    resultField (getPrettierOptions fileName parser vsCodeConfig prettierVersion
      (Except.ok none) ro) "arrowParens"
      = some (if semverCompare va (SemVer.mk 2 0 0 []) = Ordering.lt
          then JSValue.str "avoid" else getProp vsCodeConfig "arrowParens") ∧
    resultField (getPrettierOptions fileName parser vsCodeConfig prettierVersion
      (Except.ok none) ro) "trailingComma"
      = some (if semverCompare va (SemVer.mk 2 0 0 []) = Ordering.lt
          then JSValue.str "none" else getProp vsCodeConfig "trailingComma") ∧
    resultField (getPrettierOptions fileName parser vsCodeConfig prettierVersion
      (Except.ok none) ro) "endOfLine"
      = some (if semverCompare va (SemVer.mk 2 0 0 []) = Ordering.lt
          then JSValue.str "auto" else getProp vsCodeConfig "endOfLine") := by
  have h2 : semverParse "2.0.0" = some (SemVer.mk 2 0 0 []) := by rfl
  have hg : semverGte prettierVersion "2.0.0"
      = Except.ok (match semverCompare va (SemVer.mk 2 0 0 []) with
          | Ordering.lt => false
          | _ => true) := by
    simp [semverGte, hva, h2]
  rcases hc : semverCompare va (SemVer.mk 2 0 0 []) with _ | _ | _ <;>
    rw [hc] at hg <;>
    refine ⟨?_, ?_, ?_⟩ <;>
    rcases ro with _ | r <;>
    simp [getPrettierOptions, resolveConfig, hg, resultField, mergeLayers, spread,
      rangeToObj, injectedObj, setProp, emptyObj, buildVsOpts, hc]

/-- Witness for claim C4 at versions 1.19.0 (below the gate), 2.3.1 (above
it) and the prerelease 2.0.0-alpha, which sorts below the 2.0.0 release. -/
theorem getPrettierOptions_version_gate_witness :
    (resultField (getPrettierOptions "a.js" "babel" sampleVSCodeConfig "1.19.0"
        (Except.ok none) none) "arrowParens" = some (JSValue.str "avoid") ∧
      resultField (getPrettierOptions "a.js" "babel" sampleVSCodeConfig "1.19.0"
        (Except.ok none) none) "trailingComma" = some (JSValue.str "none") ∧
      resultField (getPrettierOptions "a.js" "babel" sampleVSCodeConfig "1.19.0"
        (Except.ok none) none) "endOfLine" = some (JSValue.str "auto")) ∧
    (resultField (getPrettierOptions "a.js" "babel" sampleVSCodeConfig "2.3.1"
        (Except.ok none) none) "arrowParens" = some (JSValue.str "always") ∧
      resultField (getPrettierOptions "a.js" "babel" sampleVSCodeConfig "2.3.1"
        (Except.ok none) none) "trailingComma" = some JSValue.undef ∧
      resultField (getPrettierOptions "a.js" "babel" sampleVSCodeConfig "2.3.1"
        (Except.ok none) none) "endOfLine" = some JSValue.undef) ∧
    (resultField (getPrettierOptions "a.js" "babel" sampleVSCodeConfig "2.0.0-alpha"
        (Except.ok none) none) "arrowParens" = some (JSValue.str "avoid") ∧
      resultField (getPrettierOptions "a.js" "babel" sampleVSCodeConfig "2.0.0-alpha"
        (Except.ok none) none) "trailingComma" = some (JSValue.str "none") ∧
      resultField (getPrettierOptions "a.js" "babel" sampleVSCodeConfig "2.0.0-alpha"
        (Except.ok none) none) "endOfLine" = some (JSValue.str "auto")) :=
  ⟨getPrettierOptions_version_gate "a.js" "babel" sampleVSCodeConfig "1.19.0" none
      (SemVer.mk 1 19 0 []) (by rfl),
    getPrettierOptions_version_gate "a.js" "babel" sampleVSCodeConfig "2.3.1" none
      (SemVer.mk 2 3 1 []) (by rfl),
    getPrettierOptions_version_gate "a.js" "babel" sampleVSCodeConfig "2.0.0-alpha" none
      (SemVer.mk 2 0 0 [PreId.alpha "alpha"]) (by rfl)⟩

/-- Claim C7: whenever getPrettierOptions returns a typed result, that
result carries exactly the discovery error and no options when discovery
errored, and an options object with no error otherwise: the two fields are
mutually exclusive. -/
theorem getPrettierOptions_result_exclusive (fileName parser : String) (vsCodeConfig : Obj)
    (prettierVersion : String) (discover : Except String (Option Obj))
    (ro : Option RangeFormattingOptions) (res : OptionsResult) (logs : List String)
    (hrun : getPrettierOptions fileName parser vsCodeConfig prettierVersion discover ro
      = Except.ok (res, logs)) :
    (∀ e, discover = Except.error e → res.options = none ∧ res.error = some e) ∧
    (∀ c, discover = Except.ok c → res.error = none ∧ ∃ o, res.options = some o) := by
  rcases discover with e | c
  · simp only [getPrettierOptions, resolveConfig] at hrun
    simp at hrun
    obtain ⟨h1, h2⟩ := hrun
    constructor
    · intro e2 he2
      injection he2 with h
      subst h
      simp [← h1]
    · intro c2 hc2
      simp at hc2
  · cases hsv : semverGte prettierVersion "2.0.0" with
    | error e2 =>
      simp only [getPrettierOptions, resolveConfig] at hrun
      rw [hsv] at hrun
      simp at hrun
    | ok b =>
      simp only [getPrettierOptions, resolveConfig] at hrun
      rw [hsv] at hrun
      simp at hrun
      obtain ⟨h1, h2⟩ := hrun
      constructor
      · intro e2 he2
        simp at he2
      · intro c2 hc2
        simp [← h1]

/-- Witness for claim C7 at a concrete discovery error. -/
theorem getPrettierOptions_result_exclusive_witness :
    (∀ e, (Except.error "EIO" : Except String (Option Obj)) = Except.error e →
      (OptionsResult.mk none (some "EIO")).options = none ∧
      (OptionsResult.mk none (some "EIO")).error = some e) ∧
    (∀ c, (Except.error "EIO" : Except String (Option Obj)) = Except.ok c →
      (OptionsResult.mk none (some "EIO")).error = none ∧
      ∃ o, (OptionsResult.mk none (some "EIO")).options = some o) :=
  getPrettierOptions_result_exclusive "a.js" "babel" sampleVSCodeConfig "2.0.0"
    (Except.error "EIO") none (OptionsResult.mk none (some "EIO")) [] (by rfl)

/-- Claim C8 as amended: the log output of a call is characterized totally:
exactly one log line is emitted if and only if the call returns an options
record, that is, when discovery succeeded and the version comparison did
not throw; the line is the fixed fallback message when discovery returned
the none-found sentinel and the fixed detected message otherwise.  A call
that short-circuits on a discovery error, or that throws on an invalid
version string before reaching the log statement, emits no log line. -/
theorem getPrettierOptions_single_log (fileName parser : String) (vsCodeConfig : Obj)
    (prettierVersion : String) (discover : Except String (Option Obj))
    (ro : Option RangeFormattingOptions) :
    resultLogs (getPrettierOptions fileName parser vsCodeConfig prettierVersion discover ro)
      = match discover, semverGte prettierVersion "2.0.0" with
        | Except.error _, _ => []
        | Except.ok _, Except.error _ => []
        | Except.ok cfg, Except.ok _ =>
          [if cfg.isNone then fallbackLogMsg else detectedLogMsg] := by
  rcases discover with e | cfg
  · simp [getPrettierOptions, resolveConfig, resultLogs]
  · cases hsv : semverGte prettierVersion "2.0.0" with
    | error e2 =>
      simp only [getPrettierOptions, resolveConfig]
      rw [hsv]
      simp [resultLogs]
    | ok b =>
      rcases cfg with _ | c <;>
        simp only [getPrettierOptions, resolveConfig] <;>
        rw [hsv] <;>
        simp [resultLogs]

/-- Witness instantiating the amended claim C8 at all four outcome shapes:
one fallback line, one detected line, nothing on a discovery error and
nothing on an invalid version string. -/
theorem getPrettierOptions_single_log_witness :
    resultLogs (getPrettierOptions "a.js" "babel" sampleVSCodeConfig "2.0.0"
      (Except.ok none) none) = [fallbackLogMsg] ∧
    resultLogs (getPrettierOptions "a.js" "babel" sampleVSCodeConfig "2.0.0"
      (Except.ok (some emptyObj)) none) = [detectedLogMsg] ∧
    resultLogs (getPrettierOptions "a.js" "babel" sampleVSCodeConfig "2.0.0"
      (Except.error "EIO") none) = [] ∧
    resultLogs (getPrettierOptions "a.js" "babel" sampleVSCodeConfig "not-a-version"
      (Except.ok none) none) = [] :=
  ⟨getPrettierOptions_single_log "a.js" "babel" sampleVSCodeConfig "2.0.0"
      (Except.ok none) none,
    getPrettierOptions_single_log "a.js" "babel" sampleVSCodeConfig "2.0.0"
      (Except.ok (some emptyObj)) none,
    getPrettierOptions_single_log "a.js" "babel" sampleVSCodeConfig "2.0.0"
      (Except.error "EIO") none,
    getPrettierOptions_single_log "a.js" "babel" sampleVSCodeConfig "not-a-version"
      (Except.ok none) none⟩

/-- Claim C9: getPrettierOptions never mutates its argument objects: in the
store-passing embedding every object existing before the call, in
particular the editor config, the range options record and the discovery
options, holds exactly the same fields after the call; the only written
object is the freshly allocated vsOpts. -/
theorem getPrettierOptionsST_frame (fileName parser : String) (vsCodeRef : Nat)
    (prettierVersion : String) (discover : Except String (Option Obj))
    (rangeRef : Option Nat) (σ : Store) (r : Nat) (hr : r < σ.next) :
    ((getPrettierOptionsST fileName parser vsCodeRef prettierVersion discover
      rangeRef σ).2).mem r = σ.mem r := by
  have hne : r ≠ σ.next := Nat.ne_of_lt hr
  rcases discover with e | c
  · rfl
  · cases hsv : semverGte prettierVersion "2.0.0" with
    | error e2 =>
      simp only [getPrettierOptionsST, resolveConfig]
      rw [hsv]
      simp [storeAllocEmpty, hne]
    | ok b =>
      rcases c with _ | c
      · simp only [getPrettierOptionsST, resolveConfig]
        rw [hsv]
        simp [storeAllocEmpty, buildVsOptsST, storeWrite, hne]
      · simp only [getPrettierOptionsST, resolveConfig]
        rw [hsv]
        simp [storeAllocEmpty, hne]

/-- Witness for claim C9 on the concrete two-object store: the editor
config at reference 0 and the range options at reference 1 are unchanged
by a fallback call that runs all seventeen vsOpts writes. -/
theorem getPrettierOptionsST_frame_witness :
    ((getPrettierOptionsST "a.js" "babel" 0 "1.19.0" (Except.ok none) (some 1)
      sampleStore).2).mem 0 = sampleStore.mem 0 ∧
    ((getPrettierOptionsST "a.js" "babel" 0 "1.19.0" (Except.ok none) (some 1)
      sampleStore).2).mem 1 = sampleStore.mem 1 :=
  ⟨getPrettierOptionsST_frame "a.js" "babel" 0 "1.19.0" (Except.ok none) (some 1)
      sampleStore 0 (by decide),
    getPrettierOptionsST_frame "a.js" "babel" 0 "1.19.0" (Except.ok none) (some 1)
      sampleStore 1 (by decide)⟩

end ConfigResolverModel
